import Mathlib

/-!
# warp-plus: the IP scanner facade, the ping adapter and the root command

A shallow embedding of

* `ipscanner/scanner.go`  (`IPScanner`, `NewScanner`, the `With*` options, `Run`,
  `GetAvailableIPs`),
* `ipscanner/ping/ping.go` and `ipscanner/statute/ping.go` (`Ping.calc`, `Ping.DoPing`,
  `IPing`, `IPingResult`),
* `cmd/warp-plus/rootcmd.go` (`rootConfig.exec`),

followed by theorems about these definitions.

Conventions of the embedding.

* A Go slice is a `List`; the nil slice and the empty slice (both of length 0) are `[]`.
* A Go pointer that may be nil is an `Option`; `none` is nil.
* A Go `error` is an `Option GoError`; `none` is the nil error.
* `time.Duration` is an integer number of nanoseconds.
* Calls into other packages (the engine, the logger, the standard library) are either
  parameters of the model or recorded as events with their arguments; they are not
  interpreted, with one exception: a method call on the nil `*slog.Logger` panics.
-/

namespace statute

/-- A `netip.Prefix` value, identified by the text of its address and its prefix length. -/
structure Cidr where
  Addr : String
  Bits : Nat
deriving DecidableEq, Repr

/-- A `*slog.Logger`: `none` is the nil pointer, `some n` is the logger object number `n`. -/
abbrev Logger := Option Nat

/-- A `context.Context` value, identified by a number. -/
structure Context where
  id : Nat
deriving DecidableEq, Repr

/-- Go `time.Duration`: a count of nanoseconds. -/
abbrev Duration := Int

/-- Go `time.Millisecond`. -/
def Millisecond : Duration := 1000000

/-- Go `time.Second`. -/
def Second : Duration := 1000000000

/-- A Go `error` value that is not nil, identified by its message. -/
abbrev GoError := String

/-- The fields of `statute.ScannerOptions` that `scanner.go` reads and writes. -/
structure ScannerOptions where
  UseIPv4 : Bool
  UseIPv6 : Bool
  CidrList : List Cidr
  Logger : Logger
  WarpPresharedKey : String
  WarpPeerPublicKey : String
  WarpPrivateKey : String
  IPQueueSize : Int
  MaxDesirableRTT : Duration
  IPQueueTTL : Duration
deriving DecidableEq, Repr

/-- Modelled from the spec: `statute.IPInfo` is declared in another file of the package;
the spec describes the Endpoint Record as address, measured RTT and discovery timestamp.
The Go zero value `statute.IPInfo{}` is `IPInfo.zero`. -/
structure IPInfo where
  AddrPort : String
  RTT : Duration
  CreatedAt : Int
deriving DecidableEq, Repr

/-- The Go zero value `statute.IPInfo{}`. -/
def IPInfo.zero : IPInfo := { AddrPort := "", RTT := 0, CreatedAt := 0 }

/-- A non-nil value of the interface `IPingResult`: what its methods `Result()` and
`Error()` return (the `String()` method is not used by the code modelled here). -/
structure IPingResult where
  Result : IPInfo
  Error : Option GoError
deriving DecidableEq, Repr

/-- A non-nil value of the interface `IPing`: its two methods. -/
structure IPing where
  Ping : IPingResult
  PingContext : Context → IPingResult

end statute

namespace ipscanner

open statute

/-- Go `type IPScanner struct`; `E` is the type of (non-nil) `*engine.Engine` values. -/
structure IPScanner (E : Type) where
  options : ScannerOptions
  log : Logger
  engine : Option E
deriving DecidableEq

/-- Go `type Option func(*IPScanner)`: the effect of a (non-nil) option on the scanner it is
given. -/
abbrev ScannerOption (E : Type) := IPScanner E → IPScanner E

/-- What `scanner.go` uses from outside: `statute.DefaultCFRanges()`, `slog.Default()`, and of
the package `engine` the constructor `NewScannerEngine` and the method
`(*Engine).GetAvailableIPs`. The engine runs concurrently with the facade, so what the
method returns depends on the moment of the call: `W` is the state of the program at that
moment. -/
structure Deps (E W : Type) where
  DefaultCFRanges : List Cidr
  slogDefault : Logger
  NewScannerEngine : ScannerOptions → E
  EngineGetAvailableIPs : W → E → Bool → List IPInfo

/-- The loop `for _, option := range options { option(p) }` of `NewScanner`. -/
def applyOptions {E : Type} : List (ScannerOption E) → IPScanner E → IPScanner E
  | [], p => p
  | option :: rest, p => applyOptions rest (option p)

/-- Go `func NewScanner(options ...Option) *IPScanner`. -/
def NewScanner {E W : Type} (d : Deps E W) (options : List (ScannerOption E)) : IPScanner E :=
  let p : IPScanner E :=
    { options :=
        { UseIPv4 := true
          UseIPv6 := true
          CidrList := d.DefaultCFRanges
          Logger := d.slogDefault
          WarpPresharedKey := ""
          WarpPeerPublicKey := ""
          WarpPrivateKey := ""
          IPQueueSize := 8
          MaxDesirableRTT := 400 * Millisecond
          IPQueueTTL := 30 * Second }
      log := d.slogDefault
      engine := none }
  applyOptions options p

/-- Go `func WithUseIPv4(useIPv4 bool) Option`. -/
def WithUseIPv4 {E : Type} (useIPv4 : Bool) : ScannerOption E :=
  fun i => { i with options := { i.options with UseIPv4 := useIPv4 } }

/-- Go `func WithUseIPv6(useIPv6 bool) Option`. -/
def WithUseIPv6 {E : Type} (useIPv6 : Bool) : ScannerOption E :=
  fun i => { i with options := { i.options with UseIPv6 := useIPv6 } }

/-- Go `func WithLogger(logger *slog.Logger) Option`. -/
def WithLogger {E : Type} (logger : Logger) : ScannerOption E :=
  fun i => { i with log := logger, options := { i.options with Logger := logger } }

/-- Go `func WithCidrList(cidrList []netip.Prefix) Option`. -/
def WithCidrList {E : Type} (cidrList : List Cidr) : ScannerOption E :=
  fun i => { i with options := { i.options with CidrList := cidrList } }

/-- Go `func WithIPQueueSize(size int) Option`. -/
def WithIPQueueSize {E : Type} (size : Int) : ScannerOption E :=
  fun i => { i with options := { i.options with IPQueueSize := size } }

/-- Go `func WithMaxDesirableRTT(threshold time.Duration) Option`. -/
def WithMaxDesirableRTT {E : Type} (threshold : Duration) : ScannerOption E :=
  fun i => { i with options := { i.options with MaxDesirableRTT := threshold } }

/-- Go `func WithIPQueueTTL(ttl time.Duration) Option`. -/
def WithIPQueueTTL {E : Type} (ttl : Duration) : ScannerOption E :=
  fun i => { i with options := { i.options with IPQueueTTL := ttl } }

/-- Go `func WithWarpPrivateKey(privateKey string) Option`. -/
def WithWarpPrivateKey {E : Type} (privateKey : String) : ScannerOption E :=
  fun i => { i with options := { i.options with WarpPrivateKey := privateKey } }

/-- Go `func WithWarpPeerPublicKey(peerPublicKey string) Option`. -/
def WithWarpPeerPublicKey {E : Type} (peerPublicKey : String) : ScannerOption E :=
  fun i => { i with options := { i.options with WarpPeerPublicKey := peerPublicKey } }

/-- Go `func WithWarpPreSharedKey(presharedKey string) Option`. -/
def WithWarpPreSharedKey {E : Type} (presharedKey : String) : ScannerOption E :=
  fun i => { i with options := { i.options with WarpPresharedKey := presharedKey } }

/-- What a call of `Run` does to the outside, in order. `logError l msg` is the call
`l.Error(msg)` on the logger pointer `l`; on the nil pointer the call panics inside `slog`
and writes no record. `newScannerEngine opts` is the call `engine.NewScannerEngine(&i.options)`
when the options of the scanner are `opts`; the engine keeps the pointer, which the model
does not follow. -/
inductive Event (E : Type) where
  | logError (l : Logger) (msg : String)
  | newScannerEngine (opts : ScannerOptions)
  | goEngineRun (e : E) (ctx : Context)
deriving DecidableEq

/-- The outcome of one call of `Run`. The Go method has no result parameters: when it
returns normally, what its caller gets is the empty tuple, `ret = some ()`; when it panics
there is no return, `ret = none`. `scanner` is the receiver after the call and `events` are
the calls it made, in order (`goEngineRun e ctx` is the statement `go e.Run(ctx)`). -/
structure RunResult (E : Type) where
  ret : Option Unit
  scanner : IPScanner E
  events : List (Event E)

/-- Go `func (i *IPScanner) Run(ctx context.Context)`. In the guarded branch the call
`i.log.Error(...)` panics when `i.log` is nil, before the `return`. The comment above the
method speaks of an `onChange` callback; the code has none and the model has none. -/
def Run {E W : Type} (d : Deps E W) (i : IPScanner E) (ctx : Context) : RunResult E :=
  if !i.options.UseIPv4 && !i.options.UseIPv6 then
    { ret := if i.log.isNone then none else some ()
      scanner := i
      events := [Event.logError i.log "Fatal: both IPv4 and IPv6 are disabled, nothing to do"] }
  else
    let e := d.NewScannerEngine i.options
    { ret := some ()
      scanner := { i with engine := some e }
      events := [Event.newScannerEngine i.options, Event.goEngineRun e ctx] }

/-- Go `func (i *IPScanner) GetAvailableIPs() []statute.IPInfo`, called when the program is
in state `w`. -/
def GetAvailableIPs {E W : Type} (d : Deps E W) (w : W) (i : IPScanner E) : List IPInfo :=
  match i.engine with
  | some e => d.EngineGetAvailableIPs w e false
  | none => []

end ipscanner

namespace ipscanner

open statute

/-- The fields of an `IPScanner`: the ten fields of `options`, then `log` and `engine`. -/
inductive Field where
  | UseIPv4 | UseIPv6 | CidrList | Logger | WarpPresharedKey | WarpPeerPublicKey
  | WarpPrivateKey | IPQueueSize | MaxDesirableRTT | IPQueueTTL | log | engine
deriving DecidableEq, Repr

/-- The value held by a field of an `IPScanner`. -/
inductive FieldValue (E : Type) where
  | bool (b : Bool)
  | cidrs (c : List Cidr)
  | logger (l : Logger)
  | str (s : String)
  | int (n : Int)
  | dur (t : Duration)
  | eng (e : Option E)
deriving DecidableEq

/-- Reading one field of an `IPScanner`. -/
def getField {E : Type} (f : Field) (i : IPScanner E) : FieldValue E :=
  match f with
  | Field.UseIPv4 => FieldValue.bool i.options.UseIPv4
  | Field.UseIPv6 => FieldValue.bool i.options.UseIPv6
  | Field.CidrList => FieldValue.cidrs i.options.CidrList
  | Field.Logger => FieldValue.logger i.options.Logger
  | Field.WarpPresharedKey => FieldValue.str i.options.WarpPresharedKey
  | Field.WarpPeerPublicKey => FieldValue.str i.options.WarpPeerPublicKey
  | Field.WarpPrivateKey => FieldValue.str i.options.WarpPrivateKey
  | Field.IPQueueSize => FieldValue.int i.options.IPQueueSize
  | Field.MaxDesirableRTT => FieldValue.dur i.options.MaxDesirableRTT
  | Field.IPQueueTTL => FieldValue.dur i.options.IPQueueTTL
  | Field.log => FieldValue.logger i.log
  | Field.engine => FieldValue.eng i.engine

/-- A call of one of the ten option constructors of `scanner.go`, with its argument. -/
inductive OptionCall where
  | useIPv4 (useIPv4 : Bool)
  | useIPv6 (useIPv6 : Bool)
  | logger (logger : Logger)
  | cidrList (cidrList : List Cidr)
  | ipQueueSize (size : Int)
  | maxDesirableRTT (threshold : Duration)
  | ipQueueTTL (ttl : Duration)
  | warpPrivateKey (privateKey : String)
  | warpPeerPublicKey (peerPublicKey : String)
  | warpPreSharedKey (presharedKey : String)
deriving DecidableEq, Repr

/-- The `Option` value that the constructor call returns. -/
def OptionCall.eval {E : Type} : OptionCall → ScannerOption E
  | OptionCall.useIPv4 b => WithUseIPv4 b
  | OptionCall.useIPv6 b => WithUseIPv6 b
  | OptionCall.logger l => WithLogger l
  | OptionCall.cidrList c => WithCidrList c
  | OptionCall.ipQueueSize n => WithIPQueueSize n
  | OptionCall.maxDesirableRTT t => WithMaxDesirableRTT t
  | OptionCall.ipQueueTTL t => WithIPQueueTTL t
  | OptionCall.warpPrivateKey k => WithWarpPrivateKey k
  | OptionCall.warpPeerPublicKey k => WithWarpPeerPublicKey k
  | OptionCall.warpPreSharedKey k => WithWarpPreSharedKey k

/-- The fields on the left of an assignment in the body of the option. -/
def OptionCall.assigns : OptionCall → List Field
  | OptionCall.useIPv4 _ => [Field.UseIPv4]
  | OptionCall.useIPv6 _ => [Field.UseIPv6]
  | OptionCall.logger _ => [Field.log, Field.Logger]
  | OptionCall.cidrList _ => [Field.CidrList]
  | OptionCall.ipQueueSize _ => [Field.IPQueueSize]
  | OptionCall.maxDesirableRTT _ => [Field.MaxDesirableRTT]
  | OptionCall.ipQueueTTL _ => [Field.IPQueueTTL]
  | OptionCall.warpPrivateKey _ => [Field.WarpPrivateKey]
  | OptionCall.warpPeerPublicKey _ => [Field.WarpPeerPublicKey]
  | OptionCall.warpPreSharedKey _ => [Field.WarpPresharedKey]

/-- The scanners a caller can hold without `Run` ever having accepted a configuration:
built by `NewScanner` from option constructor calls, then possibly given further options,
and possibly passed to `Run` while both address families were disabled. -/
inductive NeverStarted {E W : Type} (d : Deps E W) : IPScanner E → Prop where
  | new (os : List OptionCall) : NeverStarted d (NewScanner d (os.map OptionCall.eval))
  | option (o : OptionCall) (i : IPScanner E) : NeverStarted d i → NeverStarted d (o.eval i)
  | run (i : IPScanner E) (ctx : Context) : NeverStarted d i →
      i.options.UseIPv4 = false → i.options.UseIPv6 = false →
      NeverStarted d (Run d i ctx).scanner

/-- A concrete instance of the collaborators, for evaluating the model on examples: an
engine is identified with the options it was built from, and the state of the program is the
list of records that the snapshot read of the engine returns. -/
def sampleDeps : Deps ScannerOptions (List IPInfo) :=
  { DefaultCFRanges := [{ Addr := "162.159.192.0", Bits := 24 }]
    slogDefault := some 0
    NewScannerEngine := fun opts => opts
    EngineGetAvailableIPs := fun w _ _ => w }

/-- A scanner with both address families disabled. -/
def disabledScanner : IPScanner ScannerOptions :=
  NewScanner sampleDeps [WithUseIPv4 false, WithUseIPv6 false]

/-- A scanner with the default address families and an empty CIDR list. -/
def emptyCidrScanner : IPScanner ScannerOptions :=
  NewScanner sampleDeps [WithCidrList []]

end ipscanner

namespace ping

open statute

/-- A `netip.Addr` value, identified by its text. -/
abbrev Addr := String

/-- Go `type Ping struct`; `Options` is a `*statute.ScannerOptions`. -/
structure Ping where
  Options : Option ScannerOptions
deriving DecidableEq, Repr

/-- Go `func (p *Ping) calc(ctx context.Context, tp statute.IPing) (statute.IPInfo, error)`. -/
def Ping.calc (_p : Ping) (ctx : Context) (tp : IPing) : IPInfo × Option GoError :=
  let pr := tp.PingContext ctx
  let err := pr.Error
  if err ≠ none then
    (IPInfo.zero, err)
  else
    (pr.Result, none)

/-- Go `func (p *Ping) DoPing(ctx context.Context, ip netip.Addr) (statute.IPInfo, error)`.
`NewWarpPing` is declared in another file of the package and is a parameter. -/
def Ping.DoPing (NewWarpPing : Addr → Option ScannerOptions → IPing)
    (p : Ping) (ctx : Context) (ip : Addr) : IPInfo × Option GoError :=
  let (res, err) := p.calc ctx (NewWarpPing ip p.Options)
  if err ≠ none then
    (IPInfo.zero, err)
  else
    (res, none)

/-- A ping whose result carries the error `timeout`. -/
def failingPing : IPing :=
  { Ping := { Result := { AddrPort := "162.159.192.1:2408", RTT := 9, CreatedAt := 3 }
              Error := some "timeout" }
    PingContext := fun _ =>
      { Result := { AddrPort := "162.159.192.1:2408", RTT := 9, CreatedAt := 3 }
        Error := some "timeout" } }

/-- A ping whose result carries no error. -/
def succeedingPing : IPing :=
  { Ping := { Result := { AddrPort := "162.159.192.1:2408", RTT := 9, CreatedAt := 3 }
              Error := none }
    PingContext := fun _ =>
      { Result := { AddrPort := "162.159.192.1:2408", RTT := 9, CreatedAt := 3 }
        Error := none } }

end ping

namespace cmd

open statute

/-- A `netip.AddrPort` value, identified by the text its `String()` method returns. -/
structure AddrPort where
  text : String
deriving DecidableEq, Repr

/-- A `netip.Addr` value, identified by its text. -/
structure Addr where
  text : String
deriving DecidableEq, Repr

/-- Go `type rootConfig struct`, without the two pointers into the flag library
(`flags`, `command`). -/
structure rootConfig where
  verbose : Bool
  v4 : Bool
  v6 : Bool
  bind : String
  endpoint : String
  key : String
  dns : String
  gool : Bool
  psiphon : Bool
  country : String
  scan : Bool
  rtt : Duration
  cacheDir : String
  fwmark : Nat
  reserved : String
  wgConf : String
  testUrl : String
  config : String
deriving DecidableEq, Repr

/-- The fields of `wiresocks.ScanOptions` that `exec` sets. -/
structure ScanOptions where
  V4 : Bool
  V6 : Bool
  MaxRTT : Duration
deriving DecidableEq, Repr

/-- The field of `app.PsiphonOptions` that `exec` sets. -/
structure PsiphonOptions where
  Country : String
deriving DecidableEq, Repr

/-- The fields of `app.WarpOptions` that `exec` sets; `Psiphon` and `Scan` are pointers. -/
structure WarpOptions where
  Bind : AddrPort
  Endpoint : String
  License : String
  DnsAddr : Addr
  Gool : Bool
  FwMark : Nat
  WireguardConfig : String
  Reserved : String
  TestURL : String
  CacheDir : String
  Psiphon : Option PsiphonOptions
  Scan : Option ScanOptions
deriving DecidableEq, Repr

/-- What `exec` uses from outside `rootcmd.go`: the constant `appName`, the standard library
(`netip.ParseAddrPort`, `netip.ParseAddr`, `os.Getenv("HOME")`, `path.Join`), `xdg.CacheHome`
and `warp.RandomWarpEndpoint`. -/
structure ExecEnv where
  appName : String
  ParseAddrPort : String → Except GoError AddrPort
  ParseAddr : String → Except GoError Addr
  xdgCacheHome : String
  getenvHOME : String
  pathJoin : List String → String
  RandomWarpEndpoint : Bool → Bool → Except GoError AddrPort

/-- What `exec` has done when it reaches `go func() { app.RunWarp(ctx, l, opts) }()`:
`cfg` is the receiver after the in-place update of `v4` and `v6`, `debug` tells whether the
logger was built at debug level, `randomEndpointCall` holds the arguments of the call of
`warp.RandomWarpEndpoint` when there was one, and `opts` is what `app.RunWarp` is given.
The Info-level log records are output only and are not part of the model. -/
structure ExecLaunch where
  cfg : rootConfig
  debug : Bool
  randomEndpointCall : Option (Bool × Bool)
  opts : WarpOptions
deriving DecidableEq, Repr

/-- Modelled from the spec: `fatal(l, err)` is declared in another file of this command.
It is taken to report the error and end the process, which is what
`exec` relies on after every call (it goes on to use values that exist only when there was
no error); the spec has configuration errors fatal, the scan never beginning. -/
def fatal {α : Type} (err : GoError) : Except GoError α :=
  Except.error err

/-- Go `func (c *rootConfig) exec(ctx context.Context, args []string) error`, up to the
launch of `app.RunWarp`. `Except.error err` is the process ended by `fatal` with `err`; a
`fatal` call ends the run, so the code after it is the `else` branch. -/
def rootConfig.exec (env : ExecEnv) (c : rootConfig) : Except GoError ExecLaunch :=
  let debug := c.verbose
  if c.psiphon && c.gool then
    fatal "can't use cfon and gool at the same time"
  else if c.v4 && c.v6 then
    fatal "can't force v4 and v6 at the same time"
  else
    let c := if !c.v4 && !c.v6 then { c with v4 := true, v6 := true } else c
    match env.ParseAddrPort c.bind with
    | Except.error err => fatal ("invalid bind address: " ++ err)
    | Except.ok bindAddrPort =>
      match env.ParseAddr c.dns with
      | Except.error err => fatal ("invalid DNS address: " ++ err)
      | Except.ok dnsAddr =>
        let cacheDir :=
          if c.cacheDir ≠ "" then c.cacheDir
          else if env.xdgCacheHome ≠ "" then env.pathJoin [env.xdgCacheHome, env.appName]
          else if env.getenvHOME ≠ "" then env.pathJoin [env.getenvHOME, ".cache", env.appName]
          else "warp_plus_cache"
        let opts : WarpOptions :=
          { Bind := bindAddrPort
            Endpoint := c.endpoint
            License := c.key
            DnsAddr := dnsAddr
            Gool := c.gool
            FwMark := c.fwmark
            WireguardConfig := c.wgConf
            Reserved := c.reserved
            TestURL := c.testUrl
            CacheDir := cacheDir
            Psiphon := if c.psiphon then some { Country := c.country } else none
            Scan := if c.scan then some { V4 := c.v4, V6 := c.v6, MaxRTT := c.rtt } else none }
        if opts.Endpoint = "" then
          match env.RandomWarpEndpoint c.v4 c.v6 with
          | Except.error err => fatal err
          | Except.ok addrPort =>
            Except.ok { cfg := c, debug := debug, randomEndpointCall := some (c.v4, c.v6)
                        opts := { opts with Endpoint := addrPort.text } }
        else
          Except.ok { cfg := c, debug := debug, randomEndpointCall := none, opts := opts }

/-- The values the flags have when none is given on the command line (`newRootCmd`). The
value of `country` then comes from the table of countries of the package `psiphon`; it is a
parameter here. -/
def flagDefaults (country : String) : rootConfig :=
  { verbose := false
    v4 := false
    v6 := false
    bind := "127.0.0.1:8086"
    endpoint := ""
    key := ""
    dns := "1.1.1.1"
    gool := false
    psiphon := false
    country := country
    scan := false
    rtt := 1000 * Millisecond
    cacheDir := ""
    fwmark := 0
    reserved := ""
    wgConf := ""
    testUrl := "http://connectivity.cloudflareclient.com/cdn-cgi/trace"
    config := "" }

/-- A concrete environment, for evaluating `exec` on examples: every non-empty text parses,
and the random endpoint is a fixed one. -/
def sampleEnv : ExecEnv :=
  { appName := "warp-plus"
    ParseAddrPort := fun s => if s = "" then Except.error "empty" else Except.ok { text := s }
    ParseAddr := fun s => if s = "" then Except.error "empty" else Except.ok { text := s }
    xdgCacheHome := "/home/user/.cache"
    getenvHOME := "/home/user"
    pathJoin := fun parts => "/".intercalate parts
    RandomWarpEndpoint := fun _ _ => Except.ok { text := "162.159.192.1:2408" } }

/-- The flags `-6 --scan`, everything else at its default. -/
def scanV6Config : rootConfig :=
  { flagDefaults "AT" with v6 := true, scan := true }

/-- What `exec` reaches on `scanV6Config` in `sampleEnv`. -/
def scanV6Launch : ExecLaunch :=
  { cfg := scanV6Config
    debug := false
    randomEndpointCall := some (false, true)
    opts :=
      { Bind := { text := "127.0.0.1:8086" }
        Endpoint := "162.159.192.1:2408"
        License := ""
        DnsAddr := { text := "1.1.1.1" }
        Gool := false
        FwMark := 0
        WireguardConfig := ""
        Reserved := ""
        TestURL := "http://connectivity.cloudflareclient.com/cdn-cgi/trace"
        CacheDir := "/home/user/.cache/warp-plus"
        Psiphon := none
        Scan := some { V4 := false, V6 := true, MaxRTT := 1000000000 } } }

/-- The flags `-4 -6`, everything else at its default. -/
def bothFamiliesConfig : rootConfig :=
  { flagDefaults "AT" with v4 := true, v6 := true }

/-- The flags `-4 -6 --cfon --gool`, everything else at its default. -/
def bothFamiliesCfonGoolConfig : rootConfig :=
  { flagDefaults "AT" with v4 := true, v6 := true, psiphon := true, gool := true }

end cmd

namespace ipscanner

open statute

/-- C1: `NewScanner` called with no options yields exactly the documented defaults:
both address families enabled, the default Cloudflare ranges, queue size 8, maximum
desirable RTT 400 ms, queue TTL 30 s, the three Warp keys empty, the default logger in both
logger fields, and no engine. -/
theorem NewScanner_defaults {E W : Type} (d : Deps E W) :
    (NewScanner d []).options.UseIPv4 = true ∧
    (NewScanner d []).options.UseIPv6 = true ∧
    (NewScanner d []).options.CidrList = d.DefaultCFRanges ∧
    (NewScanner d []).options.IPQueueSize = 8 ∧
    (NewScanner d []).options.MaxDesirableRTT = 400 * 1000000 ∧
    (NewScanner d []).options.IPQueueTTL = 30 * 1000000000 ∧
    (NewScanner d []).options.WarpPrivateKey = "" ∧
    (NewScanner d []).options.WarpPeerPublicKey = "" ∧
    (NewScanner d []).options.WarpPresharedKey = "" ∧
    (NewScanner d []).options.Logger = d.slogDefault ∧
    (NewScanner d []).log = d.slogDefault ∧
    (NewScanner d []).engine = none := by
  refine ⟨rfl, rfl, rfl, rfl, rfl, rfl, rfl, rfl, rfl, rfl, rfl, rfl⟩

/-- Helper: the option loop is a left fold. -/
theorem applyOptions_eq_foldl {E : Type} (os : List (ScannerOption E)) (p : IPScanner E) :
    applyOptions os p = os.foldl (fun q o => o q) p := by
  induction os generalizing p with
  | nil => rfl
  | cons o rest ih => simpa [applyOptions] using ih (o p)

/-- Helper: the option loop over a concatenation. -/
theorem applyOptions_append {E : Type} (os qs : List (ScannerOption E)) (p : IPScanner E) :
    applyOptions (os ++ qs) p = applyOptions qs (applyOptions os p) := by
  induction os generalizing p with
  | nil => rfl
  | cons o rest ih => simpa [applyOptions] using ih (o p)

/-- Helper: an option constructor call leaves every field it does not assign unchanged. -/
theorem eval_keeps {E : Type} (o : OptionCall) (f : Field) (i : IPScanner E)
    (h : f ∉ o.assigns) : getField f (o.eval i) = getField f i := by
  cases o <;> cases f <;> first | rfl | (exfalso; revert h; simp [OptionCall.assigns])

/-- Helper: the value an option constructor call gives to a field it assigns does not depend
on the scanner it is applied to. -/
theorem eval_sets {E : Type} (o : OptionCall) (f : Field) (i j : IPScanner E)
    (h : f ∈ o.assigns) : getField f (o.eval i) = getField f (o.eval j) := by
  cases o <;> cases f <;> first | rfl | (exfalso; revert h; simp [OptionCall.assigns])

/-- Helper: a run of option constructor calls none of which assigns a field leaves it. -/
theorem applyOptions_keeps {E : Type} (os : List OptionCall) (f : Field) (i : IPScanner E)
    (h : ∀ q ∈ os, f ∉ q.assigns) :
    getField f (applyOptions (os.map OptionCall.eval) i) = getField f i := by
  induction os generalizing i with
  | nil => rfl
  | cons o rest ih =>
    have h1 : f ∉ o.assigns := h o (List.mem_cons_self _ _)
    have h2 : ∀ q ∈ rest, f ∉ q.assigns := fun q hq => h q (List.mem_cons_of_mem _ hq)
    simp only [List.map_cons, applyOptions]
    rw [ih _ h2, eval_keeps o f i h1]

/-- Helper: no option constructor call assigns the engine field. -/
theorem engine_not_assigned (o : OptionCall) : Field.engine ∉ o.assigns := by
  cases o <;> simp [OptionCall.assigns]

/-- Helper: the engine field read through `getField`. -/
theorem engine_eq_of_getField {E : Type} (i j : IPScanner E)
    (h : getField Field.engine i = getField Field.engine j) : i.engine = j.engine := by
  simpa [getField] using h

/-- Helper: a scanner on which `Run` never accepted a configuration has no engine. -/
theorem NeverStarted.engine_none {E W : Type} (d : Deps E W) (i : IPScanner E)
    (h : NeverStarted d i) : i.engine = none := by
  induction h with
  | new os =>
    exact engine_eq_of_getField _ (NewScanner d [])
      (applyOptions_keeps os Field.engine _ (fun q _ => engine_not_assigned q))
  | option o i _ ih =>
    rw [engine_eq_of_getField _ _ (eval_keeps o Field.engine i (engine_not_assigned o))]
    exact ih
  | run i ctx _ h4 h6 ih =>
    simp [Run, h4, h6, ih]

/-- C2: for every scanner with both address families disabled, `Run` only logs the fatal
error: it constructs no engine, starts no background engine run, and leaves the engine field
and the options of the scanner as they were. -/
theorem Run_both_disabled_launches_nothing {E W : Type} (d : Deps E W) (i : IPScanner E)
    (ctx : Context) (h4 : i.options.UseIPv4 = false) (h6 : i.options.UseIPv6 = false) :
    (Run d i ctx).events =
        [Event.logError i.log "Fatal: both IPv4 and IPv6 are disabled, nothing to do"] ∧
    (∀ opts, Event.newScannerEngine opts ∉ (Run d i ctx).events) ∧
    (∀ e c, Event.goEngineRun e c ∉ (Run d i ctx).events) ∧
    (Run d i ctx).scanner.engine = i.engine ∧
    (Run d i ctx).scanner.options = i.options := by
  simp [Run, h4, h6]

/-- Witness for C2: the scanner built with both families switched off. -/
theorem Run_both_disabled_launches_nothing_witness :
    disabledScanner.options.UseIPv4 = false ∧ disabledScanner.options.UseIPv6 = false ∧
    (Run sampleDeps disabledScanner { id := 1 }).events =
        [Event.logError (some 0) "Fatal: both IPv4 and IPv6 are disabled, nothing to do"] ∧
    (Run sampleDeps disabledScanner { id := 1 }).scanner.engine = none :=
  ⟨rfl, rfl,
    (Run_both_disabled_launches_nothing sampleDeps disabledScanner { id := 1 } rfl rfl).1,
    (Run_both_disabled_launches_nothing sampleDeps disabledScanner { id := 1 } rfl rfl).2.2.2.1⟩

/-- Helper: with both address families disabled and the nil logger, `Run` panics in the log
call: it does not return, and the scanner is as it was. -/
theorem Run_nil_logger_panics {E W : Type} (d : Deps E W) (i : IPScanner E) (ctx : Context)
    (h4 : i.options.UseIPv4 = false) (h6 : i.options.UseIPv6 = false) (hl : i.log = none) :
    (Run d i ctx).ret = none ∧ (Run d i ctx).scanner = i := by
  simp [Run, h4, h6, hl]

/-- Counterexample for C3: a scanner with both address families disabled (and the default
logger) and a scanner with the default, valid configuration get the same thing back from
`Run`: the normal return of a method without result. -/
theorem Run_result_same_for_disabled_and_valid :
    disabledScanner.options.UseIPv4 = false ∧ disabledScanner.options.UseIPv6 = false ∧
    (NewScanner sampleDeps []).options.UseIPv4 = true ∧
    (Run sampleDeps disabledScanner { id := 1 }).ret = some () ∧
    (Run sampleDeps disabledScanner { id := 1 }).ret =
      (Run sampleDeps (NewScanner sampleDeps []) { id := 1 }).ret :=
  ⟨rfl, rfl, rfl, rfl, rfl⟩

/-- C3, amended: `Run` has no result. For every scanner with both address families
disabled whose logger is not nil, `Run` returns normally, with the same empty result that it
returns for a valid configuration; the failure is signalled only by one Error-level log call
on the logger of the scanner, the scanner being left unchanged. For a valid configuration
`Run` returns normally, logs no error and sets the engine. -/
theorem Run_reports_disabled_by_log_only {E W : Type} (d : Deps E W) (i j : IPScanner E)
    (ctx : Context) :
    (i.options.UseIPv4 = false → i.options.UseIPv6 = false → i.log ≠ none →
      (Run d i ctx).ret = some () ∧
      (Run d i ctx).events =
          [Event.logError i.log "Fatal: both IPv4 and IPv6 are disabled, nothing to do"] ∧
      (Run d i ctx).scanner = i) ∧
    ((j.options.UseIPv4 = true ∨ j.options.UseIPv6 = true) →
      (Run d j ctx).ret = some () ∧
      (∀ l msg, Event.logError l msg ∉ (Run d j ctx).events) ∧
      (Run d j ctx).scanner.engine ≠ none) ∧
    (i.options.UseIPv4 = false → i.options.UseIPv6 = false → i.log ≠ none →
      (j.options.UseIPv4 = true ∨ j.options.UseIPv6 = true) →
      (Run d i ctx).ret = (Run d j ctx).ret) := by
  have hi : i.options.UseIPv4 = false → i.options.UseIPv6 = false → i.log ≠ none →
      (Run d i ctx).ret = some () := by
    intro h4 h6 hl
    cases hlog : i.log with
    | none => exact absurd hlog hl
    | some l => simp [Run, h4, h6, hlog]
  have hj : (j.options.UseIPv4 = true ∨ j.options.UseIPv6 = true) →
      (Run d j ctx).ret = some () := by
    intro h
    rcases h with h | h <;> simp [Run, h]
  refine ⟨?_, ?_, ?_⟩
  · intro h4 h6 hl
    refine ⟨hi h4 h6 hl, ?_, ?_⟩ <;> simp [Run, h4, h6]
  · intro h
    refine ⟨hj h, ?_, ?_⟩ <;> rcases h with h | h <;> simp [Run, h]
  · intro h4 h6 hl h
    rw [hi h4 h6 hl, hj h]

/-- Witness for C3, amended: the disabled scanner, whose logger is the default one, and the
default scanner. -/
theorem Run_reports_disabled_by_log_only_witness :
    disabledScanner.log ≠ none ∧
    (Run sampleDeps disabledScanner { id := 1 }).ret = some () ∧
    (Run sampleDeps disabledScanner { id := 1 }).events =
        [Event.logError (some 0) "Fatal: both IPv4 and IPv6 are disabled, nothing to do"] ∧
    (Run sampleDeps disabledScanner { id := 1 }).scanner = disabledScanner ∧
    (Run sampleDeps (NewScanner sampleDeps []) { id := 1 }).scanner.engine ≠ none ∧
    (Run sampleDeps disabledScanner { id := 1 }).ret =
      (Run sampleDeps (NewScanner sampleDeps []) { id := 1 }).ret :=
  ⟨by decide,
   ((Run_reports_disabled_by_log_only sampleDeps disabledScanner (NewScanner sampleDeps [])
        { id := 1 }).1 rfl rfl (by decide)).1,
   ((Run_reports_disabled_by_log_only sampleDeps disabledScanner (NewScanner sampleDeps [])
        { id := 1 }).1 rfl rfl (by decide)).2.1,
   ((Run_reports_disabled_by_log_only sampleDeps disabledScanner (NewScanner sampleDeps [])
        { id := 1 }).1 rfl rfl (by decide)).2.2,
   ((Run_reports_disabled_by_log_only sampleDeps disabledScanner (NewScanner sampleDeps [])
        { id := 1 }).2.1 (Or.inl rfl)).2.2,
   (Run_reports_disabled_by_log_only sampleDeps disabledScanner (NewScanner sampleDeps [])
        { id := 1 }).2.2 rfl rfl (by decide) (Or.inl rfl)⟩

/-- Counterexample for C4: on a scanner with an empty CIDR list and both address families
enabled, `Run` constructs an engine and launches its background run. -/
theorem Run_empty_cidr_list_launches :
    emptyCidrScanner.options.CidrList = [] ∧
    (Run sampleDeps emptyCidrScanner { id := 1 }).events =
      [Event.newScannerEngine emptyCidrScanner.options,
       Event.goEngineRun (sampleDeps.NewScannerEngine emptyCidrScanner.options) { id := 1 }] ∧
    (Run sampleDeps emptyCidrScanner { id := 1 }).scanner.engine ≠ none := by
  refine ⟨rfl, rfl, ?_⟩
  simp [Run, emptyCidrScanner, NewScanner, applyOptions, WithCidrList]

/-- C4, amended: `Run` does not look at the CIDR list. For every scanner whose CIDR list is
empty, `Run` constructs an engine from the options of the scanner, empty CIDR list
included, and launches its background run when at least one address family is enabled, and
constructs and launches nothing when both are disabled. -/
theorem Run_empty_cidr_list_decided_by_families {E W : Type} (d : Deps E W) (i : IPScanner E)
    (ctx : Context) (hc : i.options.CidrList = []) :
    ((i.options.UseIPv4 = true ∨ i.options.UseIPv6 = true) →
      (Run d i ctx).events =
        [Event.newScannerEngine i.options,
         Event.goEngineRun (d.NewScannerEngine i.options) ctx] ∧
      (Run d i ctx).scanner.engine = some (d.NewScannerEngine i.options) ∧
      (∀ opts, Event.newScannerEngine opts ∈ (Run d i ctx).events → opts.CidrList = [])) ∧
    (i.options.UseIPv4 = false → i.options.UseIPv6 = false →
      (∀ opts, Event.newScannerEngine opts ∉ (Run d i ctx).events) ∧
      (∀ e c, Event.goEngineRun e c ∉ (Run d i ctx).events) ∧
      (Run d i ctx).scanner = i) := by
  refine ⟨?_, ?_⟩
  · intro h
    rcases h with h | h <;> simp [Run, h, hc]
  · intro h4 h6
    simp [Run, h4, h6]

/-- Witness for C4, amended: the scanner with an empty CIDR list and the default families. -/
theorem Run_empty_cidr_list_decided_by_families_witness :
    emptyCidrScanner.options.CidrList = [] ∧
    (Run sampleDeps emptyCidrScanner { id := 1 }).scanner.engine =
      some (sampleDeps.NewScannerEngine emptyCidrScanner.options) :=
  ⟨rfl, ((Run_empty_cidr_list_decided_by_families sampleDeps emptyCidrScanner { id := 1 }
      rfl).1 (Or.inl rfl)).2.1⟩

/-- C5: a scanner built by `NewScanner` from any list of option constructor calls, on which
`Run` was never called or was called only while both address families were disabled,
answers `GetAvailableIPs` with the empty sequence, at every moment. -/
theorem GetAvailableIPs_never_started {E W : Type} (d : Deps E W) (i : IPScanner E)
    (h : NeverStarted d i) (w : W) : GetAvailableIPs d w i = [] := by
  simp [GetAvailableIPs, NeverStarted.engine_none d i h]

/-- Witness for C5: the disabled scanner after a call of `Run`, read at a moment when the
sample engine store would hold a record. -/
theorem GetAvailableIPs_never_started_witness :
    GetAvailableIPs sampleDeps [{ AddrPort := "162.159.192.1:2408", RTT := 5, CreatedAt := 7 }]
      (Run sampleDeps
        (NewScanner sampleDeps
          ([OptionCall.useIPv4 false, OptionCall.useIPv6 false].map OptionCall.eval))
        { id := 1 }).scanner = [] :=
  GetAvailableIPs_never_started sampleDeps _
    (NeverStarted.run _ { id := 1 }
      (NeverStarted.new [OptionCall.useIPv4 false, OptionCall.useIPv6 false]) rfl rfl) _

/-- C6: each of the nine single-field options sets the one field it names to its argument
and leaves every other field of the options, the logger and the engine unchanged;
`WithLogger` sets the logger of the scanner and `options.Logger` and leaves the rest. -/
theorem With_options_set_one_field {E : Type} (i : IPScanner E) (f : Field) :
    (∀ b, getField f (WithUseIPv4 b i) =
      if f = Field.UseIPv4 then FieldValue.bool b else getField f i) ∧
    (∀ b, getField f (WithUseIPv6 b i) =
      if f = Field.UseIPv6 then FieldValue.bool b else getField f i) ∧
    (∀ c, getField f (WithCidrList c i) =
      if f = Field.CidrList then FieldValue.cidrs c else getField f i) ∧
    (∀ n, getField f (WithIPQueueSize n i) =
      if f = Field.IPQueueSize then FieldValue.int n else getField f i) ∧
    (∀ t, getField f (WithMaxDesirableRTT t i) =
      if f = Field.MaxDesirableRTT then FieldValue.dur t else getField f i) ∧
    (∀ t, getField f (WithIPQueueTTL t i) =
      if f = Field.IPQueueTTL then FieldValue.dur t else getField f i) ∧
    (∀ k, getField f (WithWarpPrivateKey k i) =
      if f = Field.WarpPrivateKey then FieldValue.str k else getField f i) ∧
    (∀ k, getField f (WithWarpPeerPublicKey k i) =
      if f = Field.WarpPeerPublicKey then FieldValue.str k else getField f i) ∧
    (∀ k, getField f (WithWarpPreSharedKey k i) =
      if f = Field.WarpPresharedKey then FieldValue.str k else getField f i) ∧
    (∀ l, getField f (WithLogger l i) =
      if f = Field.log ∨ f = Field.Logger then FieldValue.logger l else getField f i) := by
  refine ⟨?_, ?_, ?_, ?_, ?_, ?_, ?_, ?_, ?_, ?_⟩ <;> intro x <;> cases f <;> simp [getField,
    WithUseIPv4, WithUseIPv6, WithCidrList, WithIPQueueSize, WithMaxDesirableRTT,
    WithIPQueueTTL, WithWarpPrivateKey, WithWarpPeerPublicKey, WithWarpPreSharedKey,
    WithLogger]

/-- C8: once `Run` has accepted the configuration (at least one address family enabled), the
engine of the scanner is the one constructed from the options of that scanner, and at every
later moment, also after further options were applied, `GetAvailableIPs` returns exactly the
list that the snapshot read `GetAvailableIPs(false)` of that engine returns. -/
theorem GetAvailableIPs_delegates_after_Run {E W : Type} (d : Deps E W) (i : IPScanner E)
    (ctx : Context) (h : i.options.UseIPv4 = true ∨ i.options.UseIPv6 = true) :
    (Run d i ctx).events =
      [Event.newScannerEngine i.options,
       Event.goEngineRun (d.NewScannerEngine i.options) ctx] ∧
    (Run d i ctx).scanner.engine = some (d.NewScannerEngine i.options) ∧
    ∀ (os : List OptionCall) (w : W),
      GetAvailableIPs d w (applyOptions (os.map OptionCall.eval) (Run d i ctx).scanner) =
        d.EngineGetAvailableIPs w (d.NewScannerEngine i.options) false := by
  have he : (Run d i ctx).scanner.engine = some (d.NewScannerEngine i.options) := by
    rcases h with h | h <;> simp [Run, h]
  refine ⟨?_, he, ?_⟩
  · rcases h with h | h <;> simp [Run, h]
  · intro os w
    have hk := engine_eq_of_getField _ _
      (applyOptions_keeps os Field.engine (Run d i ctx).scanner
        (fun q _ => engine_not_assigned q))
    simp [GetAvailableIPs, hk, he]

/-- Witness for C8: the default scanner after `Run`, read at a moment when the sample engine
store holds two records. -/
theorem GetAvailableIPs_delegates_after_Run_witness :
    (NewScanner sampleDeps []).options.UseIPv4 = true ∧
    GetAvailableIPs sampleDeps
      [{ AddrPort := "162.159.192.1:2408", RTT := 5, CreatedAt := 7 },
       { AddrPort := "162.159.192.9:2408", RTT := 8, CreatedAt := 6 }]
      (applyOptions ([OptionCall.ipQueueSize 4].map OptionCall.eval)
        (Run sampleDeps (NewScanner sampleDeps []) { id := 1 }).scanner) =
      [{ AddrPort := "162.159.192.1:2408", RTT := 5, CreatedAt := 7 },
       { AddrPort := "162.159.192.9:2408", RTT := 8, CreatedAt := 6 }] :=
  ⟨rfl, (GetAvailableIPs_delegates_after_Run sampleDeps (NewScanner sampleDeps []) { id := 1 }
    (Or.inl rfl)).2.2 [OptionCall.ipQueueSize 4] _⟩

/-- C9: `NewScanner` applied to a list of options is the default scanner with the options
applied one after another from left to right; so for option constructor calls the last call
in the list that assigns a field determines its final value, and a field that no call in the
list assigns keeps its default. -/
theorem NewScanner_applies_left_to_right {E W : Type} (d : Deps E W) :
    (∀ os : List (ScannerOption E),
      NewScanner d os = os.foldl (fun p o => o p) (NewScanner d [])) ∧
    (∀ (before after : List OptionCall) (o : OptionCall) (f : Field) (i : IPScanner E),
      f ∈ o.assigns → (∀ q ∈ after, f ∉ q.assigns) →
      getField f (NewScanner d ((before ++ o :: after).map OptionCall.eval)) =
        getField f (o.eval i)) ∧
    (∀ (os : List OptionCall) (f : Field), (∀ q ∈ os, f ∉ q.assigns) →
      getField f (NewScanner d (os.map OptionCall.eval)) = getField f (NewScanner d [])) := by
  refine ⟨?_, ?_, ?_⟩
  · intro os
    exact applyOptions_eq_foldl os _
  · intro before after o f i hf hafter
    have hsplit : (before ++ o :: after).map (OptionCall.eval (E := E)) =
        before.map OptionCall.eval ++ (o.eval :: after.map OptionCall.eval) := by simp
    simp only [NewScanner, hsplit, applyOptions_append, applyOptions]
    rw [applyOptions_keeps after f _ hafter]
    exact eval_sets o f _ i hf
  · intro os f hos
    exact applyOptions_keeps os f _ hos

/-- Witness for C9: of two calls of `WithIPQueueSize` the later one wins, and the TTL, which no
call in the list assigns, keeps its default of 30 s. -/
theorem NewScanner_applies_left_to_right_witness :
    getField Field.IPQueueSize
      (NewScanner sampleDeps
        (([OptionCall.ipQueueSize 3] ++ OptionCall.ipQueueSize 5 :: [OptionCall.useIPv6 false]).map
          OptionCall.eval)) = FieldValue.int 5 ∧
    getField Field.IPQueueTTL
      (NewScanner sampleDeps
        ([OptionCall.ipQueueSize 3, OptionCall.ipQueueSize 5].map OptionCall.eval)) =
      FieldValue.dur 30000000000 :=
  ⟨(NewScanner_applies_left_to_right sampleDeps).2.1 [OptionCall.ipQueueSize 3]
      [OptionCall.useIPv6 false] (OptionCall.ipQueueSize 5) Field.IPQueueSize
      (NewScanner sampleDeps []) (by decide) (by decide),
   (NewScanner_applies_left_to_right sampleDeps).2.2
      [OptionCall.ipQueueSize 3, OptionCall.ipQueueSize 5] Field.IPQueueTTL (by decide)⟩

end ipscanner

namespace ping

open statute

/-- C7: `Ping.calc` returns a non-nil error exactly when `Error()` of the ping result is
non-nil; then it returns that error with the zero `IPInfo`, and otherwise the nil error with
`Result()` of the ping result. `DoPing` returns what `calc` returns on the Warp ping built
for the address and the options, so the same holds for it. -/
theorem calc_returns_error_or_result (NewWarpPing : Addr → Option ScannerOptions → IPing)
    (p : Ping) (ctx : Context) (tp : IPing) (ip : Addr) :
    (((p.calc ctx tp).2 ≠ none ↔ (tp.PingContext ctx).Error ≠ none) ∧
     ((tp.PingContext ctx).Error ≠ none →
        p.calc ctx tp = (IPInfo.zero, (tp.PingContext ctx).Error)) ∧
     ((tp.PingContext ctx).Error = none →
        p.calc ctx tp = ((tp.PingContext ctx).Result, none))) ∧
    (p.DoPing NewWarpPing ctx ip = p.calc ctx (NewWarpPing ip p.Options) ∧
     ((p.DoPing NewWarpPing ctx ip).2 ≠ none ↔
        ((NewWarpPing ip p.Options).PingContext ctx).Error ≠ none) ∧
     (((NewWarpPing ip p.Options).PingContext ctx).Error ≠ none →
        p.DoPing NewWarpPing ctx ip =
          (IPInfo.zero, ((NewWarpPing ip p.Options).PingContext ctx).Error)) ∧
     (((NewWarpPing ip p.Options).PingContext ctx).Error = none →
        p.DoPing NewWarpPing ctx ip =
          (((NewWarpPing ip p.Options).PingContext ctx).Result, none))) := by
  have hcalc : ∀ q : IPing,
      ((p.calc ctx q).2 ≠ none ↔ (q.PingContext ctx).Error ≠ none) ∧
      ((q.PingContext ctx).Error ≠ none →
        p.calc ctx q = (IPInfo.zero, (q.PingContext ctx).Error)) ∧
      ((q.PingContext ctx).Error = none →
        p.calc ctx q = ((q.PingContext ctx).Result, none)) := by
    intro q
    cases hq : (q.PingContext ctx).Error <;> simp [Ping.calc, hq]
  have hdo : p.DoPing NewWarpPing ctx ip = p.calc ctx (NewWarpPing ip p.Options) := by
    cases hq : ((NewWarpPing ip p.Options).PingContext ctx).Error <;>
      simp [Ping.DoPing, Ping.calc, hq]
  refine ⟨hcalc tp, hdo, ?_⟩
  rw [hdo]
  exact hcalc (NewWarpPing ip p.Options)

/-- Witness for C7: a ping that fails with `timeout`, and one that succeeds. -/
theorem calc_returns_error_or_result_witness :
    ({ Options := none } : Ping).calc { id := 1 } failingPing = (IPInfo.zero, some "timeout") ∧
    ({ Options := none } : Ping).DoPing (fun _ _ => succeedingPing) { id := 1 } "162.159.192.1" =
      ({ AddrPort := "162.159.192.1:2408", RTT := 9, CreatedAt := 3 }, none) :=
  ⟨(calc_returns_error_or_result (fun _ _ => succeedingPing) { Options := none } { id := 1 }
      failingPing "162.159.192.1").1.2.1 (by decide),
   (calc_returns_error_or_result (fun _ _ => succeedingPing) { Options := none } { id := 1 }
      failingPing "162.159.192.1").2.2.2.2 rfl⟩

end ping

namespace cmd

open statute

/-- Counterexample for C10: with `-4` and `-6` both set together with `--cfon` and `--gool`,
the run is rejected by the earlier check, with another fatal error than the one for the
address families. -/
theorem exec_both_families_other_fatal_error :
    bothFamiliesCfonGoolConfig.v4 = true ∧ bothFamiliesCfonGoolConfig.v6 = true ∧
    rootConfig.exec sampleEnv bothFamiliesCfonGoolConfig =
      Except.error "can't use cfon and gool at the same time" ∧
    rootConfig.exec sampleEnv bothFamiliesCfonGoolConfig ≠
      Except.error "can't force v4 and v6 at the same time" :=
  ⟨rfl, rfl, rfl, fun h => absurd (Except.error.inj h) (by decide)⟩

/-- C10, amended: in `exec`, `-4` and `-6` both set is rejected with a fatal error, which is
"can't force v4 and v6 at the same time" unless `--cfon` and `--gool` are both set too, the
earlier check then ending the run with its own error. On every run that reaches the launch,
`-4` and `-6` were not both set; with neither set both families are enabled, with one set
the pair is as given; so at least one family is enabled in the pair, which is the pair put
in the scan options and passed to `RandomWarpEndpoint` (called when no endpoint was given);
and the scan options are present exactly when the scan flag is set, with `MaxRTT` the rtt
flag. -/
theorem exec_family_flags (env : ExecEnv) (c : rootConfig) :
    (c.v4 = true → c.v6 = true →
      rootConfig.exec env c =
        Except.error (if c.psiphon && c.gool then "can't use cfon and gool at the same time"
          else "can't force v4 and v6 at the same time")) ∧
    (∀ r, rootConfig.exec env c = Except.ok r →
      ¬ (c.v4 = true ∧ c.v6 = true) ∧
      (c.v4 = false → c.v6 = false → r.cfg.v4 = true ∧ r.cfg.v6 = true) ∧
      ((c.v4 = true ∨ c.v6 = true) → r.cfg.v4 = c.v4 ∧ r.cfg.v6 = c.v6) ∧
      (r.cfg.v4 = true ∨ r.cfg.v6 = true) ∧
      r.opts.Scan =
        (if c.scan then some { V4 := r.cfg.v4, V6 := r.cfg.v6, MaxRTT := c.rtt } else none) ∧
      r.randomEndpointCall =
        (if c.endpoint = "" then some (r.cfg.v4, r.cfg.v6) else none)) := by
  constructor
  · intro h4 h6
    cases hp : c.psiphon <;> cases hg : c.gool <;>
      simp [rootConfig.exec, fatal, hp, hg, h4, h6]
  · intro r hr
    unfold rootConfig.exec at hr
    simp only [fatal] at hr
    split at hr
    · exact absurd hr (by simp)
    split at hr
    · exact absurd hr (by simp)
    cases hb : env.ParseAddrPort
        (if (!c.v4 && !c.v6) = true then { c with v4 := true, v6 := true } else c).bind with
    | error e => rw [hb] at hr; exact absurd hr (by simp)
    | ok b =>
      rw [hb] at hr
      simp only at hr
      cases hd : env.ParseAddr
          (if (!c.v4 && !c.v6) = true then { c with v4 := true, v6 := true } else c).dns with
      | error e => rw [hd] at hr; exact absurd hr (by simp)
      | ok a =>
        rw [hd] at hr
        simp only at hr
        cases hrw : env.RandomWarpEndpoint
            (if (!c.v4 && !c.v6) = true then { c with v4 := true, v6 := true } else c).v4
            (if (!c.v4 && !c.v6) = true then { c with v4 := true, v6 := true } else c).v6 with
        | error e =>
          rw [hrw] at hr
          cases h4 : c.v4 <;> cases h6 : c.v6 <;> cases he : decide (c.endpoint = "") <;>
            simp_all
          all_goals (subst hr; simp_all)
        | ok ap =>
          rw [hrw] at hr
          cases h4 : c.v4 <;> cases h6 : c.v6 <;> cases he : decide (c.endpoint = "") <;>
            simp_all
          all_goals (subst hr; simp_all)

/-- Witness for C10, amended: `-4 -6` alone is rejected with the address-family error, and
`-6 --scan` reaches the launch with the pair (false, true) in the scan options and in the
call of `RandomWarpEndpoint`. -/
theorem exec_family_flags_witness :
    rootConfig.exec sampleEnv bothFamiliesConfig =
      Except.error "can't force v4 and v6 at the same time" ∧
    rootConfig.exec sampleEnv scanV6Config = Except.ok scanV6Launch ∧
    scanV6Launch.opts.Scan = some { V4 := false, V6 := true, MaxRTT := 1000000000 } ∧
    scanV6Launch.randomEndpointCall = some (false, true) :=
  ⟨(exec_family_flags sampleEnv bothFamiliesConfig).1 rfl rfl,
   rfl,
   ((exec_family_flags sampleEnv scanV6Config).2 scanV6Launch rfl).2.2.2.2.1,
   ((exec_family_flags sampleEnv scanV6Config).2 scanV6Launch rfl).2.2.2.2.2⟩

end cmd
